import Mathlib

/-!
Verification development for the ABEcrypto healthcare repository.

Part one embeds the attribute-based hybrid encryption module
(src/utils/encryption.js): JavaScript attribute values, the policy
evaluator checkPolicySatisfaction / checkCondition, the medical-record
policy builder createMedicalRecordPolicy, the user-attribute builder
getUserAttributes, and the hybrid codec encrypt / decrypt built on
CryptoJS AES and SHA-256.

Part two embeds the access-request subsystem of the Healthcare Solidity
contract: uploadEncryptedMedicalRecord, requestRecordAccess,
approveAccessRequest, denyAccessRequest, hasDoctorAccess, revokeAccess,
updateEncryptedMedicalRecord and deactivateMedicalRecord, as a state
transition system with revert-on-require semantics.
-/

/-- JavaScript runtime values as they occur in attribute sets and policy
conditions: undefined (the result of a missing property lookup), null,
strings, numbers, booleans and arrays. -/
inductive JSVal where
  | undef
  | null
  | str (s : String)
  | num (n : Int)
  | bool (b : Bool)
  | list (vs : List JSVal)

/-- JavaScript strict equality on the values above. Scalars compare
structurally; two array values compare by reference, and policy or
attribute arrays are always freshly constructed objects, so a comparison
of two array values yields false. Note that undefined is strictly equal
to undefined and strictly unequal to null. -/
def jsEq : JSVal → JSVal → Bool
  | JSVal.undef, JSVal.undef => true
  | JSVal.null, JSVal.null => true
  | JSVal.str a, JSVal.str b => a == b
  | JSVal.num a, JSVal.num b => a == b
  | JSVal.bool a, JSVal.bool b => a == b
  | _, _ => false

/-- An attribute set is a JavaScript object: an association list from
property names to values. -/
def AttributeSet : Type := List (String × JSVal)

/-- Lowercasing of a string as performed by the JavaScript toLowerCase
call, written as an executable character map. -/
def jsToLower (s : String) : String := String.mk (s.data.map Char.toLower)

/-- Property lookup on an attribute set; a missing property reads as
undefined, exactly as in JavaScript. -/
def getAttr : AttributeSet → String → JSVal
  | [], _ => JSVal.undef
  | (k, v) :: rest, key => if k = key then v else getAttr rest key

/-- One policy condition, with the stringly-typed operator dispatch of the
source. The JavaScript property named attribute is called attr here
because its JavaScript name is a reserved word in Lean. -/
structure Condition where
  attr : String
  operator : String
  value : JSVal

/-- Embedding of checkCondition from src/utils/encryption.js lines
194-211: look the attribute up (undefined when missing) and dispatch on
the operator string; unknown operators yield false. The includes branch
requires the attribute value to be an array, the in branch requires the
condition value to be an array; includes membership is modelled by strict
equality on elements. -/
def checkCondition (condition : Condition) (userAttributes : AttributeSet) : Bool :=
  let userValue := getAttr userAttributes condition.attr
  match condition.operator with
  | "===" => jsEq userValue condition.value
  | "!==" => !(jsEq userValue condition.value)
  | "includes" =>
      match userValue with
      | JSVal.list vs => vs.any (fun x => jsEq x condition.value)
      | _ => false
  | "in" =>
      match condition.value with
      | JSVal.list vs => vs.any (fun x => jsEq x userValue)
      | _ => false
  | _ => false

/-- Access policies as produced and consumed by src/utils/encryption.js:
either an object with a type tag (AND, OR, or anything else) and a flat
array of conditions, or a SIMPLE policy, which is a bare condition object
carrying the type tag SIMPLE. -/
inductive Policy where
  | node (ptype : String) (conditions : List Condition)
  | simple (c : Condition)

/-- Embedding of checkPolicySatisfaction from src/utils/encryption.js
lines 169-189: AND requires every condition to hold, OR requires at least
one, SIMPLE checks the policy object itself as a condition, and any other
type tag yields false. The null-policy and null-attribute guards of the
source are vacuous here because the embedding has no null policies. -/
def checkPolicySatisfaction (policy : Policy) (userAttributes : AttributeSet) : Bool :=
  match policy with
  | Policy.node ptype conditions =>
      if ptype = "AND" then conditions.all (fun c => checkCondition c userAttributes)
      else if ptype = "OR" then conditions.any (fun c => checkCondition c userAttributes)
      else false
  | Policy.simple c => checkCondition c userAttributes

/-- Options object of createMedicalRecordPolicy with its JavaScript
defaults. -/
structure MedicalPolicyOptions where
  doctorId : Option Int := none
  doctorSpeciality : Option String := none
  allowAdmin : Bool := true
  approvedDoctorIds : List Int := []

/-- Embedding of createMedicalRecordPolicy from src/utils/encryption.js
lines 229-306. The source pushes every condition into one flat array and
returns an OR node over that array; no AND grouping of the role condition
with its companion id or speciality condition takes place. JavaScript
truthiness of the optional fields is modelled explicitly: a doctorId of 0
and an empty speciality string are falsy and produce no conditions. -/
def createMedicalRecordPolicy (patientId : Int) (options : MedicalPolicyOptions) : Policy :=
  let conditions : List Condition :=
    [⟨"role", "===", JSVal.str "patient"⟩,
     ⟨"patientId", "===", JSVal.num patientId⟩]
    ++ (match options.doctorId with
        | some d =>
            if d = 0 then []
            else [⟨"role", "===", JSVal.str "doctor"⟩,
                  ⟨"doctorId", "===", JSVal.num d⟩]
        | none => [])
    ++ (match options.doctorSpeciality with
        | some sp =>
            if sp = "" then []
            else [⟨"role", "===", JSVal.str "doctor"⟩,
                  ⟨"speciality", "===", JSVal.str sp⟩]
        | none => [])
    ++ (if options.approvedDoctorIds = [] then []
        else [⟨"role", "===", JSVal.str "doctor"⟩,
              ⟨"doctorId", "in", JSVal.list (options.approvedDoctorIds.map JSVal.num)⟩])
    ++ (if options.allowAdmin then [⟨"role", "===", JSVal.str "admin"⟩] else [])
  Policy.node "OR" conditions

/-- Embedding of getUserAttributes from src/utils/encryption.js lines
361-369: returns the attribute object verbatim, lowercasing only the
address (the optional-chaining call maps a missing address to undefined);
role, patientId, doctorId and speciality are passed through unchanged. -/
def getUserAttributes (address : Option String) (role : JSVal)
    (patientId : JSVal := JSVal.null) (doctorId : JSVal := JSVal.null)
    (speciality : JSVal := JSVal.null) : AttributeSet :=
  [("address", match address with
               | some a => JSVal.str (jsToLower a)
               | none => JSVal.undef),
   ("role", role),
   ("patientId", patientId),
   ("doctorId", doctorId),
   ("speciality", speciality)]

mutual

/-- JSON serialization of a value, mirroring JSON.stringify on the value
shapes that occur inside policies. -/
def jsonOfVal : JSVal → String
  | JSVal.undef => "null"
  | JSVal.null => "null"
  | JSVal.str s => "\"" ++ s ++ "\""
  | JSVal.num n => toString n
  | JSVal.bool b => if b then "true" else "false"
  | JSVal.list vs => "[" ++ jsonOfList vs ++ "]"

/-- JSON serialization of the elements of an array, comma separated. -/
def jsonOfList : List JSVal → String
  | [] => ""
  | [v] => jsonOfVal v
  | v :: vs => jsonOfVal v ++ "," ++ jsonOfList vs

end

/-- JSON serialization of one condition object in JavaScript property
order. -/
def jsonOfCondition (c : Condition) : String :=
  "\x7b\"attribute\":\"" ++ c.attr ++ "\",\"operator\":\"" ++ c.operator
    ++ "\",\"value\":" ++ jsonOfVal c.value ++ "\x7d"

/-- JSON serialization of the elements of a condition array, comma
separated. -/
def jsonOfConditions : List Condition → String
  | [] => ""
  | [c] => jsonOfCondition c
  | c :: cs => jsonOfCondition c ++ "," ++ jsonOfConditions cs

/-- Embedding of JSON.stringify on a policy object, the serialization
that the codec feeds into the wrap-key derivation. -/
def serializePolicy : Policy → String
  | Policy.node ptype conditions =>
      "\x7b\"type\":\"" ++ ptype ++ "\",\"conditions\":["
        ++ jsonOfConditions conditions ++ "]\x7d"
  | Policy.simple c =>
      "\x7b\"type\":\"SIMPLE\",\"condition\":" ++ jsonOfCondition c ++ "\x7d"

/-- CryptoJS SHA-256, modelled by its contract as an ideal hash: a
deterministic function of its input that is injective in the model (the
random-oracle idealization of a collision-free digest). -/
def sha256 (s : String) : String :=
  "SHA256(" ++ s ++ ")"

/-- Master seed constant of src/utils/encryption.js line 30. -/
def masterSeed : String := "healthcare-abe-master-seed-2024"

/-- Master key derivation of src/utils/encryption.js lines 29-32. -/
def masterKey : String := sha256 masterSeed

/-- CryptoJS AES ciphertext, modelled by the contract of an ideal
symmetric cipher: the ciphertext determines its plaintext and is openable
exactly under the key it was produced with. The plaintext slot carries
the data that the source passes through JSON.stringify before encryption
and recovers through JSON.parse after decryption. -/
structure AESCipher (α : Type) where
  plaintext : α
  key : String

/-- Error outcomes of the codec, in the order the source raises them:
accessDenied is the policy-gate failure of decryptAESKeyWithABE,
abeUnwrapFailed is a key-unwrap failure past the gate, and
aesDecryptFailed is a content-decryption failure in decryptWithAES. -/
inductive ABEError where
  | accessDenied
  | abeUnwrapFailed
  | aesDecryptFailed

/-- Embedding of encryptWithAES from src/utils/encryption.js lines 44-59
at the ideal-cipher level of abstraction. -/
def encryptWithAES (data : JSVal) (aesKey : String) : AESCipher JSVal :=
  ⟨data, aesKey⟩

/-- Embedding of decryptWithAES from src/utils/encryption.js lines 64-83:
decryption under the wrong key fails (the source surfaces this as an
empty or unparsable plaintext and throws), decryption under the right
key returns the original data. -/
def decryptWithAES (encryptedData : AESCipher JSVal) (aesKey : String) :
    Except ABEError JSVal :=
  if encryptedData.key = aesKey then Except.ok encryptedData.plaintext
  else Except.error ABEError.aesDecryptFailed

/-- Result record of encryptAESKeyWithABE. -/
structure EncryptedKeyData where
  encryptedKey : AESCipher String
  policy : Policy
  algorithm : String

/-- Embedding of encryptAESKeyWithABE from src/utils/encryption.js lines
100-128: the AES key is wrapped under SHA256(masterKey plus the JSON
serialization of the policy), and the policy rides along in clear. -/
def encryptAESKeyWithABE (aesKey : String) (accessPolicy : Policy) : EncryptedKeyData :=
  let policyString := serializePolicy accessPolicy
  let encryptionKey := sha256 (masterKey ++ policyString)
  ⟨⟨aesKey, encryptionKey⟩, accessPolicy, "ABE-AES-Hybrid"⟩

/-- Embedding of decryptAESKeyWithABE from src/utils/encryption.js lines
134-163: first the policy gate, which raises the access-denied error
without touching the wrapped key; only past the gate is the unwrap key
recomputed as SHA256(masterKey plus the JSON serialization of the policy
carried in the package) and the wrapped key opened. -/
def decryptAESKeyWithABE (encryptedKey : AESCipher String) (policy : Policy)
    (userAttributes : AttributeSet) : Except ABEError String :=
  if checkPolicySatisfaction policy userAttributes then
    let policyString := serializePolicy policy
    let decryptionKey := sha256 (masterKey ++ policyString)
    if encryptedKey.key = decryptionKey then Except.ok encryptedKey.plaintext
    else Except.error ABEError.abeUnwrapFailed
  else Except.error ABEError.accessDenied

/-- Envelope produced by the hybrid encrypt function (the timestamp field
of the source, an ISO clock reading, carries no information the codec
reads back and is omitted). -/
structure EncryptedPackage where
  encryptedData : AESCipher JSVal
  encryptedKey : AESCipher String
  policy : Policy
  algorithm : String

/-- Embedding of encrypt from src/utils/encryption.js lines 311-333. The
fresh random AES key that step one draws from the RNG is passed in
explicitly. -/
def encrypt (data : JSVal) (accessPolicy : Policy) (aesKey : String) : EncryptedPackage :=
  let encryptedData := encryptWithAES data aesKey
  let encryptedKeyData := encryptAESKeyWithABE aesKey accessPolicy
  ⟨encryptedData, encryptedKeyData.encryptedKey, encryptedKeyData.policy,
   encryptedKeyData.algorithm⟩

/-- Embedding of decrypt from src/utils/encryption.js lines 338-356:
unwrap the AES key through the policy gate, then decrypt the content. -/
def decrypt (encryptedPackage : EncryptedPackage) (userAttributes : AttributeSet) :
    Except ABEError JSVal := do
  let aesKey ← decryptAESKeyWithABE encryptedPackage.encryptedKey
    encryptedPackage.policy userAttributes
  decryptWithAES encryptedPackage.encryptedData aesKey

/-- Doctor record of the Healthcare contract (the fields the embedded
functions read). -/
structure Doctor where
  id : Nat
  accountAddress : String
  isApproved : Bool

/-- EncryptedMedicalRecord struct of the Healthcare contract. -/
structure EncryptedMedicalRecord where
  id : Nat
  patientId : Nat
  ipfsHash : String
  encryptedAESKey : String
  accessPolicy : String
  timestamp : Nat
  uploadedBy : String
  isActive : Bool

/-- AccessRequest struct of the Healthcare contract. -/
structure AccessRequest where
  id : Nat
  recordId : Nat
  doctorId : Nat
  patientId : Nat
  reason : String
  timestamp : Nat
  isPending : Bool
  isApproved : Bool

/-- Notification struct of the Healthcare contract. -/
structure Notification where
  id : Nat
  userAddress : String
  message : String
  timestamp : Nat
  categoryType : String

/-- Storage of the Healthcare contract restricted to what the encrypted
medical records subsystem reads and writes. Solidity mappings are total
functions with zero-like defaults supplied by the concrete state. -/
structure ContractState where
  admin : String
  doctors : Nat → Doctor
  registeredDoctors : String → Bool
  doctorAddressToId : String → Nat
  doctorIdToAddress : Nat → String
  patientAddressToId : String → Nat
  patientIdToAddress : Nat → String
  patientMedicalRecords : Nat → List EncryptedMedicalRecord
  patientAccessRequests : Nat → List AccessRequest
  doctorRecordAccess : Nat → Nat → Bool
  accessRequestCounter : Nat
  notifications : String → List Notification

/-- Revert reasons of the embedded contract functions, one per require
string in the source. -/
inductive ContractError where
  | ipfsHashRequired
  | encryptedKeyRequired
  | unauthorizedUpload
  | notRegisteredDoctor
  | doctorNotApproved
  | recordNotFound
  | notRegisteredPatient
  | requestNotFound
  | requestAlreadyProcessed
  | onlyDoctor
  | noAccessToRecords
  | onlyPatientOrAdmin

/-- Embedding of ADD_NOTIFICATION: append a notification to the given
address, its id being the current length of that inbox. -/
def addNotification (s : ContractState) (userAddress message categoryType : String)
    (now : Nat) : ContractState :=
  { s with notifications := fun a =>
      if a = userAddress then
        s.notifications userAddress
          ++ [⟨(s.notifications userAddress).length, userAddress, message, now,
               categoryType⟩]
      else s.notifications a }

/-- Embedding of uploadEncryptedMedicalRecord (contract lines 197-230):
guards, then push of a fresh active record whose id is the current length
of the patient array; returns the new state and the record id. Reverts
are modelled as errors that discard all effects. -/
def uploadEncryptedMedicalRecord (s : ContractState) (sender : String)
    (patientId : Nat) (ipfsHash encryptedAESKey accessPolicy : String)
    (now : Nat) : Except ContractError (ContractState × Nat) :=
  if ipfsHash.length = 0 then Except.error ContractError.ipfsHashRequired
  else if encryptedAESKey.length = 0 then Except.error ContractError.encryptedKeyRequired
  else if ¬(s.patientIdToAddress patientId = sender
            ∨ ((s.doctors (s.doctorAddressToId sender)).isApproved
               ∧ s.doctorRecordAccess patientId (s.doctorAddressToId sender))) then
    Except.error ContractError.unauthorizedUpload
  else
    let recordId := (s.patientMedicalRecords patientId).length
    let s1 := { s with patientMedicalRecords := fun p =>
        if p = patientId then
          s.patientMedicalRecords patientId
            ++ [⟨recordId, patientId, ipfsHash, encryptedAESKey, accessPolicy,
                 now, sender, true⟩]
        else s.patientMedicalRecords p }
    let s2 := addNotification s1 (s.patientIdToAddress patientId)
      "New encrypted medical record uploaded" "Medical Record" now
    Except.ok (s2, recordId)

/-- Embedding of requestRecordAccess (contract lines 252-279): sender
must resolve to an approved doctor, the record must exist; then the
global request counter is incremented and a pending, unapproved request
is appended to the patient queue. -/
def requestRecordAccess (s : ContractState) (sender : String)
    (patientId recordId : Nat) (reason : String) (now : Nat) :
    Except ContractError ContractState :=
  let doctorId := s.doctorAddressToId sender
  if doctorId = 0 then Except.error ContractError.notRegisteredDoctor
  else if ¬(s.doctors doctorId).isApproved then Except.error ContractError.doctorNotApproved
  else if ¬(recordId < (s.patientMedicalRecords patientId).length) then
    Except.error ContractError.recordNotFound
  else
    let counter := s.accessRequestCounter + 1
    let s1 := { s with
      accessRequestCounter := counter,
      patientAccessRequests := fun p =>
        if p = patientId then
          s.patientAccessRequests patientId
            ++ [⟨counter, recordId, doctorId, patientId, reason, now, true, false⟩]
        else s.patientAccessRequests p }
    let s2 := addNotification s1 (s.patientIdToAddress patientId)
      "Doctor requested access to your medical record" "Access Request" now
    let s3 := addNotification s2 sender
      "Access request submitted to patient" "Access Request" now
    Except.ok s3

/-- Embedding of approveAccessRequest (contract lines 282-300): the
sender must be a registered patient, the request index must exist in that
patient queue and the request must still be pending; then the request is
marked resolved-approved in place and the coarse grant flag for this
patient and the requesting doctor is set. -/
def approveAccessRequest (s : ContractState) (sender : String) (requestIndex : Nat)
    (now : Nat) : Except ContractError ContractState :=
  let patientId := s.patientAddressToId sender
  if patientId = 0 then Except.error ContractError.notRegisteredPatient
  else
    match (s.patientAccessRequests patientId)[requestIndex]? with
    | none => Except.error ContractError.requestNotFound
    | some request =>
      if request.isPending then
        let request1 := { request with isPending := false, isApproved := true }
        let s1 := { s with
          patientAccessRequests := fun p =>
            if p = patientId then
              (s.patientAccessRequests patientId).set requestIndex request1
            else s.patientAccessRequests p,
          doctorRecordAccess := fun p d =>
            if p = patientId ∧ d = request.doctorId then true
            else s.doctorRecordAccess p d }
        let s2 := addNotification s1 sender
          "You approved the access request of the doctor" "Access Request" now
        let s3 := addNotification s2 (s.doctorIdToAddress request.doctorId)
          "Patient approved your access request" "Access Request" now
        Except.ok s3
      else Except.error ContractError.requestAlreadyProcessed

/-- Embedding of denyAccessRequest (contract lines 303-318): same guards
as approve; the request is marked resolved-unapproved in place and the
grant table is not touched. -/
def denyAccessRequest (s : ContractState) (sender : String) (requestIndex : Nat)
    (now : Nat) : Except ContractError ContractState :=
  let patientId := s.patientAddressToId sender
  if patientId = 0 then Except.error ContractError.notRegisteredPatient
  else
    match (s.patientAccessRequests patientId)[requestIndex]? with
    | none => Except.error ContractError.requestNotFound
    | some request =>
      if request.isPending then
        let request1 := { request with isPending := false, isApproved := false }
        let s1 := { s with
          patientAccessRequests := fun p =>
            if p = patientId then
              (s.patientAccessRequests patientId).set requestIndex request1
            else s.patientAccessRequests p }
        let s2 := addNotification s1 sender
          "You denied the access request of the doctor" "Access Request" now
        let s3 := addNotification s2 (s.doctorIdToAddress request.doctorId)
          "Patient denied your access request" "Access Request" now
        Except.ok s3
      else Except.error ContractError.requestAlreadyProcessed

/-- Embedding of hasDoctorAccess (contract lines 330-336): a plain read
of the coarse grant flag. -/
def hasDoctorAccess (s : ContractState) (patientId doctorId : Nat) : Bool :=
  s.doctorRecordAccess patientId doctorId

/-- Embedding of revokeAccess (contract lines 339-347): the sender must
be a registered patient; the grant flag for the given doctor is cleared
unconditionally and no request history is touched. -/
def revokeAccess (s : ContractState) (sender : String) (doctorId : Nat)
    (now : Nat) : Except ContractError ContractState :=
  let patientId := s.patientAddressToId sender
  if patientId = 0 then Except.error ContractError.notRegisteredPatient
  else
    let s1 := { s with doctorRecordAccess := fun p d =>
        if p = patientId ∧ d = doctorId then false else s.doctorRecordAccess p d }
    let s2 := addNotification s1 sender
      "You revoked the access of the doctor to your records" "Access Request" now
    let s3 := addNotification s2 (s.doctorIdToAddress doctorId)
      "Patient revoked your access to their records" "Access Request" now
    Except.ok s3

/-- Embedding of updateEncryptedMedicalRecord (contract lines 350-369):
caller must be a registered doctor with the coarse grant flag for this
patient; the stored record struct is then mutated in place, overwriting
ipfsHash, encryptedAESKey, timestamp and uploadedBy of the same array
slot. -/
def updateEncryptedMedicalRecord (s : ContractState) (sender : String)
    (patientId recordId : Nat) (newIpfsHash newEncryptedAESKey : String)
    (now : Nat) : Except ContractError ContractState :=
  if ¬s.registeredDoctors sender then Except.error ContractError.onlyDoctor
  else
    match (s.patientMedicalRecords patientId)[recordId]? with
    | none => Except.error ContractError.recordNotFound
    | some record =>
      if ¬s.doctorRecordAccess patientId (s.doctorAddressToId sender) then
        Except.error ContractError.noAccessToRecords
      else
        let record1 := { record with
          ipfsHash := newIpfsHash,
          encryptedAESKey := newEncryptedAESKey,
          timestamp := now,
          uploadedBy := sender }
        let s1 := { s with patientMedicalRecords := fun p =>
            if p = patientId then
              (s.patientMedicalRecords patientId).set recordId record1
            else s.patientMedicalRecords p }
        let s2 := addNotification s1 (s.patientIdToAddress patientId)
          "Doctor updated your medical record" "Medical Record" now
        let s3 := addNotification s2 sender
          "Medical record updated successfully" "Medical Record" now
        Except.ok s3

/-- Embedding of deactivateMedicalRecord (contract lines 372-382): only
the patient or the admin; the record is kept and only its isActive flag
is cleared. -/
def deactivateMedicalRecord (s : ContractState) (sender : String)
    (patientId recordId : Nat) (now : Nat) : Except ContractError ContractState :=
  match (s.patientMedicalRecords patientId)[recordId]? with
  | none => Except.error ContractError.recordNotFound
  | some record =>
    if ¬(s.patientIdToAddress patientId = sender ∨ sender = s.admin) then
      Except.error ContractError.onlyPatientOrAdmin
    else
      let record1 := { record with isActive := false }
      let s1 := { s with patientMedicalRecords := fun p =>
          if p = patientId then
            (s.patientMedicalRecords patientId).set recordId record1
          else s.patientMedicalRecords p }
      let s2 := addNotification s1 (s.patientIdToAddress patientId)
        "Medical record deactivated" "Medical Record" now
      Except.ok s2

set_option maxRecDepth 8000

/-- Access policy of specification scenario A: record of patient 7,
authored by doctor 3 with speciality cardiology, admin allowed. -/
def scenarioAPolicy : Policy :=
  createMedicalRecordPolicy 7 ⟨some 3, some "cardiology", true, []⟩

/-- Policy admitting only the owner and the admin, used to exhibit a
second distinct wrap key. -/
def adminOnlyPolicy : Policy :=
  createMedicalRecordPolicy 7 ⟨none, none, true, []⟩

/-- Attributes of doctor 3, the author of the scenario A record. -/
def doctor3Attrs : AttributeSet :=
  getUserAttributes (some "0xD3") (JSVal.str "doctor") JSVal.null (JSVal.num 3) JSVal.null

/-- Attributes of doctor 9 with speciality cardiology. -/
def doctor9CardioAttrs : AttributeSet :=
  getUserAttributes (some "0xD9") (JSVal.str "doctor") JSVal.null (JSVal.num 9)
    (JSVal.str "cardiology")

/-- Attributes of doctor 9 with speciality neurology. -/
def doctor9NeuroAttrs : AttributeSet :=
  getUserAttributes (some "0xD9") (JSVal.str "doctor") JSVal.null (JSVal.num 9)
    (JSVal.str "neurology")

/-- Attributes of a requester satisfying none of the scenario A policy
conditions. -/
def nurseAttrs : AttributeSet :=
  getUserAttributes (some "0xN1") (JSVal.str "nurse") JSVal.null JSVal.null JSVal.null

/-- Plaintext of the scenario A record. -/
def recordData : JSVal := JSVal.str "scenario-a-medical-record"

/-- Envelope of scenario A, encrypted with a concrete run of the RNG. -/
def envelopeA : EncryptedPackage := encrypt recordData scenarioAPolicy "aes-key-a"

/-- Concrete ledger state for the contract scenarios: admin, patient 7 at
address 0xp7, approved doctor 9 at address 0xd9, one active encrypted
record stored for patient 7, no requests and no grants. -/
def baseState : ContractState where
  admin := "0xadmin"
  doctors := fun i => if i = 9 then ⟨9, "0xd9", true⟩ else ⟨0, "", false⟩
  registeredDoctors := fun a => a = "0xd9"
  doctorAddressToId := fun a => if a = "0xd9" then 9 else 0
  doctorIdToAddress := fun i => if i = 9 then "0xd9" else ""
  patientAddressToId := fun a => if a = "0xp7" then 7 else 0
  patientIdToAddress := fun i => if i = 7 then "0xp7" else ""
  patientMedicalRecords := fun p =>
    if p = 7 then [⟨0, 7, "QmRec0", "WrappedKey0", "policy-a-json", 50, "0xp7", true⟩]
    else []
  patientAccessRequests := fun _ => []
  doctorRecordAccess := fun _ _ => false
  accessRequestCounter := 0
  notifications := fun _ => []

/-- Ledger state after doctor 9 requested access to record 0 of
patient 7. -/
def stateAfterRequest : ContractState :=
  (requestRecordAccess baseState "0xd9" 7 0 "second opinion" 100).toOption.getD baseState

/-- Ledger state after patient 7 approved that request. -/
def stateAfterApprove : ContractState :=
  (approveAccessRequest stateAfterRequest "0xp7" 0 101).toOption.getD stateAfterRequest

/-- Ledger state after patient 7 subsequently revoked the access of
doctor 9. -/
def stateAfterRevoke : ContractState :=
  (revokeAccess stateAfterApprove "0xp7" 9 102).toOption.getD stateAfterApprove

/-- Ledger state after patient 7 denied the pending request instead. -/
def stateAfterDeny : ContractState :=
  (denyAccessRequest stateAfterRequest "0xp7" 0 103).toOption.getD stateAfterRequest

/-- Ledger state after doctor 9, holding the coarse grant, overwrote
record 0 of patient 7 with new ciphertext and a new wrapped key. -/
def stateAfterUpdate : ContractState :=
  (updateEncryptedMedicalRecord stateAfterApprove "0xd9" 7 0 "QmRec0v2" "WrappedKey0v2"
    200).toOption.getD stateAfterApprove

/-- Ledger state after patient 7 deactivated record 0. -/
def stateAfterDeactivate : ContractState :=
  (deactivateMedicalRecord baseState "0xp7" 7 0 60).toOption.getD baseState

/-- Left cancellation of string concatenation. -/
theorem string_append_left_cancel {s a b : String} (h : s ++ a = s ++ b) : a = b := by
  have h2 := congrArg String.data h
  simp only [String.data_append] at h2
  exact String.ext (List.append_cancel_left h2)

/-- Right cancellation of string concatenation. -/
theorem string_append_right_cancel {a b t : String} (h : a ++ t = b ++ t) : a = b := by
  have h2 := congrArg String.data h
  simp only [String.data_append] at h2
  exact String.ext (List.append_cancel_right h2)

/-- Injectivity of the ideal hash model. -/
theorem sha256_injective {a b : String} (h : sha256 a = sha256 b) : a = b := by
  unfold sha256 at h
  exact string_append_left_cancel (string_append_right_cancel h)

/-- Bind on Except propagates a success. -/
theorem except_bind_ok {e a b : Type} (x : a) (f : a → Except e b) :
    (Except.ok x >>= f) = f x := rfl

/-- Bind on Except propagates an error. -/
theorem except_bind_err {e a b : Type} (err : e) (f : a → Except e b) :
    ((Except.error err : Except e a) >>= f) = Except.error err := rfl

/-- Characterization of a successful approveAccessRequest: the sender is
a registered patient, the indexed request existed and was pending, the
stored request is overwritten as resolved-approved, the grant flag of the
requesting doctor is set, and every other storage component the claims
read is untouched. -/
theorem approve_ok_spec (s : ContractState) (sender : String) (i now : Nat)
    (s' : ContractState) (h : approveAccessRequest s sender i now = Except.ok s') :
    s.patientAddressToId sender ≠ 0 ∧
    ∃ r, (s.patientAccessRequests (s.patientAddressToId sender))[i]? = some r
      ∧ r.isPending = true
      ∧ s'.patientAccessRequests = (fun p =>
          if p = s.patientAddressToId sender then
            (s.patientAccessRequests (s.patientAddressToId sender)).set i
              { r with isPending := false, isApproved := true }
          else s.patientAccessRequests p)
      ∧ s'.doctorRecordAccess = (fun p d =>
          if p = s.patientAddressToId sender ∧ d = r.doctorId then true
          else s.doctorRecordAccess p d)
      ∧ s'.patientAddressToId = s.patientAddressToId
      ∧ s'.patientIdToAddress = s.patientIdToAddress
      ∧ s'.patientMedicalRecords = s.patientMedicalRecords
      ∧ s'.registeredDoctors = s.registeredDoctors
      ∧ s'.doctorAddressToId = s.doctorAddressToId := by
  simp only [approveAccessRequest] at h
  split at h
  · exact absurd h (by simp)
  next h0 =>
    split at h
    · exact absurd h (by simp)
    next r hr =>
      split at h
      next hp =>
        simp only [Except.ok.injEq] at h
        subst h
        exact ⟨h0, r, hr, hp, rfl, rfl, rfl, rfl, rfl, rfl, rfl⟩
      next hp =>
        exact absurd h (by simp)

/-- Approving a request that is no longer pending reverts with the
already-processed require message. -/
theorem approve_resolved_error (s : ContractState) (sender : String) (i now : Nat)
    (r : AccessRequest) (h0 : s.patientAddressToId sender ≠ 0)
    (hr : (s.patientAccessRequests (s.patientAddressToId sender))[i]? = some r)
    (hp : r.isPending = false) :
    approveAccessRequest s sender i now
      = Except.error ContractError.requestAlreadyProcessed := by
  simp only [approveAccessRequest]
  rw [if_neg h0, hr]
  simp [hp]

/-- Denying a request that is no longer pending reverts with the
already-processed require message. -/
theorem deny_resolved_error (s : ContractState) (sender : String) (i now : Nat)
    (r : AccessRequest) (h0 : s.patientAddressToId sender ≠ 0)
    (hr : (s.patientAccessRequests (s.patientAddressToId sender))[i]? = some r)
    (hp : r.isPending = false) :
    denyAccessRequest s sender i now
      = Except.error ContractError.requestAlreadyProcessed := by
  simp only [denyAccessRequest]
  rw [if_neg h0, hr]
  simp [hp]

/-- Characterization of a successful denyAccessRequest: the indexed
request existed and was pending, it is overwritten as
resolved-unapproved, and the grant table is untouched. -/
theorem deny_ok_spec (s : ContractState) (sender : String) (i now : Nat)
    (s' : ContractState) (h : denyAccessRequest s sender i now = Except.ok s') :
    s.patientAddressToId sender ≠ 0 ∧
    ∃ r, (s.patientAccessRequests (s.patientAddressToId sender))[i]? = some r
      ∧ r.isPending = true
      ∧ s'.patientAccessRequests = (fun p =>
          if p = s.patientAddressToId sender then
            (s.patientAccessRequests (s.patientAddressToId sender)).set i
              { r with isPending := false, isApproved := false }
          else s.patientAccessRequests p)
      ∧ s'.doctorRecordAccess = s.doctorRecordAccess
      ∧ s'.patientAddressToId = s.patientAddressToId
      ∧ s'.patientMedicalRecords = s.patientMedicalRecords := by
  simp only [denyAccessRequest] at h
  split at h
  · exact absurd h (by simp)
  next h0 =>
    split at h
    · exact absurd h (by simp)
    next r hr =>
      split at h
      next hp =>
        simp only [Except.ok.injEq] at h
        subst h
        exact ⟨h0, r, hr, hp, rfl, rfl, rfl, rfl⟩
      next hp =>
        exact absurd h (by simp)

/-- Characterization of a successful revokeAccess: the grant flag of the
given doctor is cleared and neither request history nor records are
touched. -/
theorem revoke_ok_spec (s : ContractState) (sender : String) (doctorId now : Nat)
    (s' : ContractState) (h : revokeAccess s sender doctorId now = Except.ok s') :
    s.patientAddressToId sender ≠ 0 ∧
    s'.doctorRecordAccess = (fun p d =>
        if p = s.patientAddressToId sender ∧ d = doctorId then false
        else s.doctorRecordAccess p d)
    ∧ s'.patientAccessRequests = s.patientAccessRequests
    ∧ s'.patientMedicalRecords = s.patientMedicalRecords
    ∧ s'.patientAddressToId = s.patientAddressToId := by
  simp only [revokeAccess] at h
  split at h
  · exact absurd h (by simp)
  next h0 =>
    simp only [Except.ok.injEq] at h
    subst h
    exact ⟨h0, rfl, rfl, rfl, rfl⟩

/-- Totality of revokeAccess for a registered patient: the function has
no pending-state guard and always succeeds. -/
theorem revoke_total (s : ContractState) (sender : String) (doctorId now : Nat)
    (h0 : s.patientAddressToId sender ≠ 0) :
    ∃ s', revokeAccess s sender doctorId now = Except.ok s' := by
  simp only [revokeAccess]
  rw [if_neg h0]
  exact ⟨_, rfl⟩

/-- Characterization of a successful updateEncryptedMedicalRecord: the
record array of the patient is overwritten at the same slot. -/
theorem update_ok_spec (s : ContractState) (sender : String)
    (patientId recordId : Nat) (newIpfsHash newEncryptedAESKey : String) (now : Nat)
    (s' : ContractState)
    (h : updateEncryptedMedicalRecord s sender patientId recordId newIpfsHash
          newEncryptedAESKey now = Except.ok s') :
    ∃ r, (s.patientMedicalRecords patientId)[recordId]? = some r
      ∧ s'.patientMedicalRecords = (fun p =>
          if p = patientId then
            (s.patientMedicalRecords patientId).set recordId
              { r with ipfsHash := newIpfsHash, encryptedAESKey := newEncryptedAESKey,
                       timestamp := now, uploadedBy := sender }
          else s.patientMedicalRecords p)
      ∧ s'.patientAccessRequests = s.patientAccessRequests := by
  simp only [updateEncryptedMedicalRecord] at h
  split at h
  · exact absurd h (by simp)
  next h0 =>
    split at h
    · exact absurd h (by simp)
    next r hr =>
      split at h
      · exact absurd h (by simp)
      next hacc =>
        simp only [Except.ok.injEq] at h
        subst h
        exact ⟨r, hr, rfl, rfl⟩

/-- Characterization of a successful deactivateMedicalRecord: the record
stays in the array, with only its isActive flag cleared. -/
theorem deactivate_ok_spec (s : ContractState) (sender : String)
    (patientId recordId now : Nat) (s' : ContractState)
    (h : deactivateMedicalRecord s sender patientId recordId now = Except.ok s') :
    ∃ r, (s.patientMedicalRecords patientId)[recordId]? = some r
      ∧ s'.patientMedicalRecords = (fun p =>
          if p = patientId then
            (s.patientMedicalRecords patientId).set recordId
              { r with isActive := false }
          else s.patientMedicalRecords p) := by
  simp only [deactivateMedicalRecord] at h
  split at h
  · exact absurd h (by simp)
  next r hr =>
    split at h
    · exact absurd h (by simp)
    next hauth =>
      simp only [Except.ok.injEq] at h
      subst h
      exact ⟨r, hr, rfl⟩

/-- C2: for every envelope and every attribute set that does not satisfy
the embedded policy, decrypt fails with the access-denied error. The
conclusion holds for an arbitrary envelope, whatever its wrapped key and
ciphertext contain, because the policy gate runs before any unwrap
attempt; no plaintext, partial or otherwise, is ever produced on this
path. -/
theorem decrypt_unsatisfied_attrs_access_denied :
    ∀ (pkg : EncryptedPackage) (attrs : AttributeSet),
      checkPolicySatisfaction pkg.policy attrs = false →
      decrypt pkg attrs = Except.error ABEError.accessDenied := by
  intro pkg attrs h
  simp [decrypt, decryptAESKeyWithABE, h, except_bind_err]

/-- Witness for C2: the scenario A envelope decrypted with attributes of
a requester in no policy clause yields the access-denied error. -/
theorem decrypt_unsatisfied_attrs_access_denied_witness :
    decrypt envelopeA nurseAttrs = Except.error ABEError.accessDenied :=
  decrypt_unsatisfied_attrs_access_denied envelopeA nurseAttrs rfl

/-- C3: for every plaintext, policy and content key, decrypting the
envelope produced by encrypt with any attribute set satisfying the policy
returns exactly the original plaintext. -/
theorem decrypt_encrypt_roundtrip :
    ∀ (data : JSVal) (policy : Policy) (aesKey : String) (attrs : AttributeSet),
      checkPolicySatisfaction policy attrs = true →
      decrypt (encrypt data policy aesKey) attrs = Except.ok data := by
  intro data policy aesKey attrs h
  simp [decrypt, encrypt, encryptAESKeyWithABE, decryptAESKeyWithABE,
        encryptWithAES, decryptWithAES, h, except_bind_ok]

/-- Witness for C3: the scenario A round trip for doctor 3. -/
theorem decrypt_encrypt_roundtrip_witness :
    decrypt (encrypt recordData scenarioAPolicy "aes-key-a") doctor3Attrs
      = Except.ok recordData :=
  decrypt_encrypt_roundtrip recordData scenarioAPolicy "aes-key-a" doctor3Attrs rfl

/-- C5: encrypt wraps the content key under the key derived by hashing
the master secret together with the serialized policy; decrypt, past a
passing policy gate, unwraps successfully exactly when the package wrap
key equals that same derivation, so both sides compute one KDF of
(master secret, serialized policy); and for a fixed master secret the
wrap key varies with the policy serialization. -/
theorem wrap_key_is_kdf_of_policy :
    (∀ (data : JSVal) (policy : Policy) (aesKey : String),
       (encrypt data policy aesKey).encryptedKey.key
         = sha256 (masterKey ++ serializePolicy policy))
    ∧ (∀ (ek : AESCipher String) (policy : Policy) (attrs : AttributeSet),
         checkPolicySatisfaction policy attrs = true →
         (decryptAESKeyWithABE ek policy attrs = Except.ok ek.plaintext
           ↔ ek.key = sha256 (masterKey ++ serializePolicy policy)))
    ∧ (∀ (p q : Policy), serializePolicy p ≠ serializePolicy q →
         sha256 (masterKey ++ serializePolicy p)
           ≠ sha256 (masterKey ++ serializePolicy q)) := by
  refine ⟨fun data policy aesKey => rfl, ?_, ?_⟩
  · intro ek policy attrs h
    constructor
    · intro hok
      simp only [decryptAESKeyWithABE, h, if_true] at hok
      split at hok
      · assumption
      · exact absurd hok (by simp)
    · intro hkey
      simp [decryptAESKeyWithABE, h, hkey]
  · intro p q hne heq
    exact hne (string_append_left_cancel (sha256_injective heq))

/-- Witness for C5: a correctly derived wrap key unwraps for doctor 3 on
the scenario A policy, and the scenario A wrap key differs from the wrap
key of the owner-and-admin-only policy. -/
theorem wrap_key_is_kdf_of_policy_witness :
    (decryptAESKeyWithABE
        ⟨"aes-key-a", sha256 (masterKey ++ serializePolicy scenarioAPolicy)⟩
        scenarioAPolicy doctor3Attrs = Except.ok "aes-key-a")
    ∧ sha256 (masterKey ++ serializePolicy scenarioAPolicy)
        ≠ sha256 (masterKey ++ serializePolicy adminOnlyPolicy) :=
  ⟨(wrap_key_is_kdf_of_policy.2.1
      ⟨"aes-key-a", sha256 (masterKey ++ serializePolicy scenarioAPolicy)⟩
      scenarioAPolicy doctor3Attrs rfl).mpr rfl,
   wrap_key_is_kdf_of_policy.2.2 scenarioAPolicy adminOnlyPolicy (by decide)⟩

/-- C4 counterexample: a condition with the strict-inequality operator on
an attribute that is absent from the attribute set evaluates to true, not
false, refuting the claim that a missing attribute never satisfies a
condition for every operator. -/
theorem neq_condition_true_on_missing_attribute :
    checkCondition ⟨"speciality", "!==", JSVal.str "cardiology"⟩ [] = true := rfl

/-- C4 as amended: on a missing attribute, conditions with the equality,
includes and in operators (the latter over a list that does not itself
contain undefined) are false, but a strict-inequality condition whose
value is defined is true: absence satisfies the not-equal operator. -/
theorem missing_attribute_condition_semantics :
    ∀ (attrs : AttributeSet) (a : String) (v : JSVal),
      getAttr attrs a = JSVal.undef → v ≠ JSVal.undef →
      checkCondition ⟨a, "!==", v⟩ attrs = true
      ∧ checkCondition ⟨a, "===", v⟩ attrs = false
      ∧ checkCondition ⟨a, "includes", v⟩ attrs = false
      ∧ (∀ vs : List JSVal, JSVal.undef ∉ vs →
          checkCondition ⟨a, "in", JSVal.list vs⟩ attrs = false) := by
  intro attrs a v hget hv
  have hjs : jsEq JSVal.undef v = false := by
    cases v
    · exact absurd rfl hv
    · rfl
    · rfl
    · rfl
    · rfl
    · rfl
  refine ⟨?_, ?_, ?_, ?_⟩
  · simp [checkCondition, hget, hjs]
  · simp [checkCondition, hget, hjs]
  · simp [checkCondition, hget]
  · intro vs hvs
    simp only [checkCondition, hget]
    rw [List.any_eq_false]
    intro x hx
    cases x
    · exact absurd hx hvs
    all_goals simp [jsEq]

/-- Witness for the amended C4: concrete evaluation of the two leading
conjuncts on an empty attribute set. -/
theorem missing_attribute_condition_semantics_witness :
    checkCondition ⟨"speciality", "!==", JSVal.str "oncology"⟩ [] = true
    ∧ checkCondition ⟨"speciality", "===", JSVal.str "oncology"⟩ [] = false :=
  ⟨(missing_attribute_condition_semantics [] "speciality" (JSVal.str "oncology")
      rfl (fun h => nomatch h)).1,
   (missing_attribute_condition_semantics [] "speciality" (JSVal.str "oncology")
      rfl (fun h => nomatch h)).2.1⟩

/-- C9 counterexample: getUserAttributes called with the empty identity
and mixed-case role and speciality returns an ordinary attribute set (its
return type admits no error at all), keeps role equal to the given
mixed-case string rather than normalizing it to lowercase, keeps the
speciality case too, and stores the empty address instead of failing. -/
theorem getUserAttributes_no_normalization_counterexample :
    getAttr (getUserAttributes (some "") (JSVal.str "Doctor") JSVal.null JSVal.null
      (JSVal.str "Cardiology")) "role" = JSVal.str "Doctor"
    ∧ getAttr (getUserAttributes (some "") (JSVal.str "Doctor") JSVal.null JSVal.null
      (JSVal.str "Cardiology")) "role" ≠ JSVal.str "doctor"
    ∧ getAttr (getUserAttributes (some "") (JSVal.str "Doctor") JSVal.null JSVal.null
      (JSVal.str "Cardiology")) "speciality" = JSVal.str "Cardiology"
    ∧ getAttr (getUserAttributes (some "") (JSVal.str "Doctor") JSVal.null JSVal.null
      (JSVal.str "Cardiology")) "address" = JSVal.str "" := by
  refine ⟨rfl, ?_, rfl, rfl⟩
  intro h
  exact absurd (JSVal.str.inj h) (by decide)

/-- C9 as amended: getUserAttributes is a pure total function that
lowercases only the address; role and speciality pass through with their
case untouched, and an empty identity is accepted, producing an attribute
set whose address is the empty string. -/
theorem getUserAttributes_passthrough_semantics :
    ∀ (a : String) (role patientId doctorId speciality : JSVal),
      getAttr (getUserAttributes (some a) role patientId doctorId speciality) "role" = role
      ∧ getAttr (getUserAttributes (some a) role patientId doctorId speciality)
          "speciality" = speciality
      ∧ getAttr (getUserAttributes (some a) role patientId doctorId speciality)
          "address" = JSVal.str (jsToLower a)
      ∧ getAttr (getUserAttributes (some "") role patientId doctorId speciality)
          "address" = JSVal.str "" := by
  intro a role patientId doctorId speciality
  exact ⟨rfl, rfl, rfl, rfl⟩

/-- C1: evaluation of the code on specification scenario A. The policy
built for patient 7 with author doctor 3, speciality cardiology and admin
access is a flat OR in which the bare role-equals-doctor condition is its
own disjunct, so doctor 3 decrypts, doctor 9 with cardiology decrypts,
and, against the claim and against the doc comment of the builder itself,
doctor 9 with neurology also decrypts instead of failing with access
denied: the final two conjuncts isolate the reason. -/
theorem medical_policy_flat_or_admits_unlisted_doctor :
    decrypt envelopeA doctor3Attrs = Except.ok recordData
    ∧ decrypt envelopeA doctor9CardioAttrs = Except.ok recordData
    ∧ decrypt envelopeA doctor9NeuroAttrs = Except.ok recordData
    ∧ checkPolicySatisfaction scenarioAPolicy doctor9NeuroAttrs = true
    ∧ checkCondition ⟨"role", "===", JSVal.str "doctor"⟩ doctor9NeuroAttrs = true :=
  ⟨rfl, rfl, rfl, rfl, rfl⟩

/-- C6: a request resolves exactly once. An already resolved request (in
any state, and in particular in the state reached by a successful approve
or deny) makes both approve and deny revert with the already-processed
error; since a revert discards every effect, the stored status and the
grant table are untouched by the failed call. -/
theorem resolved_request_rejects_second_resolution :
    (∀ (s : ContractState) (sender : String) (i now : Nat) (r : AccessRequest),
       s.patientAddressToId sender ≠ 0 →
       (s.patientAccessRequests (s.patientAddressToId sender))[i]? = some r →
       r.isPending = false →
       approveAccessRequest s sender i now
           = Except.error ContractError.requestAlreadyProcessed
       ∧ denyAccessRequest s sender i now
           = Except.error ContractError.requestAlreadyProcessed)
    ∧ (∀ (s : ContractState) (sender : String) (i now now2 : Nat) (s' : ContractState),
         approveAccessRequest s sender i now = Except.ok s' →
         approveAccessRequest s' sender i now2
             = Except.error ContractError.requestAlreadyProcessed
         ∧ denyAccessRequest s' sender i now2
             = Except.error ContractError.requestAlreadyProcessed)
    ∧ (∀ (s : ContractState) (sender : String) (i now now2 : Nat) (s' : ContractState),
         denyAccessRequest s sender i now = Except.ok s' →
         approveAccessRequest s' sender i now2
             = Except.error ContractError.requestAlreadyProcessed
         ∧ denyAccessRequest s' sender i now2
             = Except.error ContractError.requestAlreadyProcessed) := by
  refine ⟨?_, ?_, ?_⟩
  · intro s sender i now r h0 hr hp
    exact ⟨approve_resolved_error s sender i now r h0 hr hp,
           deny_resolved_error s sender i now r h0 hr hp⟩
  · intro s sender i now now2 s' h
    obtain ⟨h0, r, hr, hp, hreq, hacc, haddr, _, _, _, _⟩ :=
      approve_ok_spec s sender i now s' h
    have hlen : i < (s.patientAccessRequests (s.patientAddressToId sender)).length :=
      (List.getElem?_eq_some_iff.mp hr).1
    have h0' : s'.patientAddressToId sender ≠ 0 := by rw [haddr]; exact h0
    have hr' : (s'.patientAccessRequests (s'.patientAddressToId sender))[i]?
        = some { r with isPending := false, isApproved := true } := by
      rw [haddr, hreq]
      simp [List.getElem?_set_self hlen]
    exact ⟨approve_resolved_error s' sender i now2 _ h0' hr' rfl,
           deny_resolved_error s' sender i now2 _ h0' hr' rfl⟩
  · intro s sender i now now2 s' h
    obtain ⟨h0, r, hr, hp, hreq, hacc, haddr, _⟩ :=
      deny_ok_spec s sender i now s' h
    have hlen : i < (s.patientAccessRequests (s.patientAddressToId sender)).length :=
      (List.getElem?_eq_some_iff.mp hr).1
    have h0' : s'.patientAddressToId sender ≠ 0 := by rw [haddr]; exact h0
    have hr' : (s'.patientAccessRequests (s'.patientAddressToId sender))[i]?
        = some { r with isPending := false, isApproved := false } := by
      rw [haddr, hreq]
      simp [List.getElem?_set_self hlen]
    exact ⟨approve_resolved_error s' sender i now2 _ h0' hr' rfl,
           deny_resolved_error s' sender i now2 _ h0' hr' rfl⟩

/-- Witness for C6: a second approve or deny of the already approved
scenario B request fails with the already-processed error. -/
theorem resolved_request_rejects_second_resolution_witness :
    approveAccessRequest stateAfterApprove "0xp7" 0 999
        = Except.error ContractError.requestAlreadyProcessed
    ∧ denyAccessRequest stateAfterApprove "0xp7" 0 999
        = Except.error ContractError.requestAlreadyProcessed :=
  resolved_request_rejects_second_resolution.2.1 stateAfterRequest "0xp7" 0 101 999
    stateAfterApprove rfl

/-- C7: a successful approve sets the coarse grant flag for the owner and
the requesting doctor; a subsequent revoke by the owner clears that flag,
succeeds unconditionally for any registered owner (no hypothesis on the
prior flag value, hence idempotent on the grant table), and alters no
request history, so the original request keeps its approved status; and a
successful deny leaves the whole grant table unchanged. -/
theorem approve_revoke_grant_flag_frame :
    (∀ (s : ContractState) (sender : String) (i now : Nat) (s' : ContractState),
       approveAccessRequest s sender i now = Except.ok s' →
       ∃ r, (s.patientAccessRequests (s.patientAddressToId sender))[i]? = some r
         ∧ hasDoctorAccess s' (s.patientAddressToId sender) r.doctorId = true)
    ∧ (∀ (s : ContractState) (sender : String) (i now : Nat) (s' : ContractState)
         (doctorId now2 : Nat) (s'' : ContractState),
         approveAccessRequest s sender i now = Except.ok s' →
         revokeAccess s' sender doctorId now2 = Except.ok s'' →
         hasDoctorAccess s'' (s.patientAddressToId sender) doctorId = false
         ∧ s''.patientAccessRequests = s'.patientAccessRequests
         ∧ ((s''.patientAccessRequests (s.patientAddressToId sender))[i]?).map
             (fun r => r.isApproved) = some true)
    ∧ (∀ (s : ContractState) (sender : String) (doctorId now : Nat),
         s.patientAddressToId sender ≠ 0 →
         ∃ s', revokeAccess s sender doctorId now = Except.ok s'
           ∧ hasDoctorAccess s' (s.patientAddressToId sender) doctorId = false)
    ∧ (∀ (s : ContractState) (sender : String) (i now : Nat) (s' : ContractState),
         denyAccessRequest s sender i now = Except.ok s' →
         s'.doctorRecordAccess = s.doctorRecordAccess) := by
  refine ⟨?_, ?_, ?_, ?_⟩
  · intro s sender i now s' h
    obtain ⟨h0, r, hr, hp, hreq, hacc, haddr, _, _, _, _⟩ :=
      approve_ok_spec s sender i now s' h
    refine ⟨r, hr, ?_⟩
    unfold hasDoctorAccess
    rw [hacc]
    simp
  · intro s sender i now s' doctorId now2 s'' happrove hrevoke
    obtain ⟨h0, r, hr, hp, hreq, hacc, haddr, _, _, _, _⟩ :=
      approve_ok_spec s sender i now s' happrove
    obtain ⟨h0', hacc', hreq', _, haddr'⟩ :=
      revoke_ok_spec s' sender doctorId now2 s'' hrevoke
    have hlen : i < (s.patientAccessRequests (s.patientAddressToId sender)).length :=
      (List.getElem?_eq_some_iff.mp hr).1
    refine ⟨?_, hreq', ?_⟩
    · unfold hasDoctorAccess
      rw [hacc', haddr]
      simp
    · rw [hreq', hreq]
      simp [List.getElem?_set_self hlen]
  · intro s sender doctorId now h0
    obtain ⟨s', hs'⟩ := revoke_total s sender doctorId now h0
    obtain ⟨h0', hacc', _, _, _⟩ := revoke_ok_spec s sender doctorId now s' hs'
    refine ⟨s', hs', ?_⟩
    unfold hasDoctorAccess
    rw [hacc']
    simp
  · intro s sender i now s' h
    obtain ⟨h0, r, hr, hp, hreq, hacc, haddr, _⟩ :=
      deny_ok_spec s sender i now s' h
    exact hacc

/-- Witness for C7: in scenario B, after the approve and the revoke the
grant flag of doctor 9 is clear while the stored request is still marked
approved, and the denied branch leaves the grant table untouched. -/
theorem approve_revoke_grant_flag_frame_witness :
    (hasDoctorAccess stateAfterRevoke (stateAfterRequest.patientAddressToId "0xp7") 9
        = false
     ∧ stateAfterRevoke.patientAccessRequests = stateAfterApprove.patientAccessRequests
     ∧ ((stateAfterRevoke.patientAccessRequests
          (stateAfterRequest.patientAddressToId "0xp7"))[0]?).map
         (fun r => r.isApproved) = some true)
    ∧ stateAfterDeny.doctorRecordAccess = stateAfterRequest.doctorRecordAccess :=
  ⟨approve_revoke_grant_flag_frame.2.1 stateAfterRequest "0xp7" 0 101 stateAfterApprove
      9 102 stateAfterRevoke rfl rfl,
   approve_revoke_grant_flag_frame.2.2.2 stateAfterRequest "0xp7" 0 103 stateAfterDeny rfl⟩

/-- C8: evaluation of the code on specification scenario B. Doctor 9
requests access to record 0 of patient 7, patient 7 approves, the
request is stored approved and the coarse grant flag is set; decrypt of
doctor 9 with the original scenario A envelope does not consult that
flag (its inputs are the envelope and the attributes alone), but,
against the claim, it succeeds rather than failing with access denied,
because the flat OR policy already admits any requester whose role is
doctor. -/
theorem scenarioB_grant_does_not_gate_decrypt :
    requestRecordAccess baseState "0xd9" 7 0 "second opinion" 100
        = Except.ok stateAfterRequest
    ∧ (stateAfterRequest.patientAccessRequests 7).map (fun r => r.isPending) = [true]
    ∧ approveAccessRequest stateAfterRequest "0xp7" 0 101 = Except.ok stateAfterApprove
    ∧ (stateAfterApprove.patientAccessRequests 7).map (fun r => r.isApproved) = [true]
    ∧ hasDoctorAccess stateAfterApprove 7 9 = true
    ∧ decrypt envelopeA doctor9NeuroAttrs = Except.ok recordData :=
  ⟨rfl, rfl, rfl, rfl, rfl, rfl⟩

/-- C10 counterexample: the update function called on the stored scenario
record leaves the record count unchanged and afterwards no envelope with
the original ciphertext hash exists any more: the stored envelope was
mutated in place, not superseded by a new envelope alongside the old
one. -/
theorem update_record_mutates_in_place_counterexample :
    updateEncryptedMedicalRecord stateAfterApprove "0xd9" 7 0 "QmRec0v2" "WrappedKey0v2" 200
        = Except.ok stateAfterUpdate
    ∧ (stateAfterUpdate.patientMedicalRecords 7).length
        = (stateAfterApprove.patientMedicalRecords 7).length
    ∧ (stateAfterUpdate.patientMedicalRecords 7).map (fun r => r.ipfsHash) = ["QmRec0v2"]
    ∧ ((stateAfterUpdate.patientMedicalRecords 7).all
        (fun r => r.ipfsHash != "QmRec0")) = true :=
  ⟨rfl, rfl, rfl, rfl⟩

/-- C10 as amended: an update overwrites ciphertext hash, wrapped key,
timestamp and uploader of the stored envelope in place at the same record
slot, keeping its identity fields and access policy, leaving the record
count and all other records unchanged; and records are never deleted:
deactivation keeps the record at its slot and only clears the isActive
flag. -/
theorem update_record_in_place_and_never_deleted :
    (∀ (s : ContractState) (sender : String) (patientId recordId : Nat)
       (newIpfsHash newEncryptedAESKey : String) (now : Nat)
       (s' : ContractState) (r : EncryptedMedicalRecord),
       updateEncryptedMedicalRecord s sender patientId recordId newIpfsHash
           newEncryptedAESKey now = Except.ok s' →
       (s.patientMedicalRecords patientId)[recordId]? = some r →
       (s'.patientMedicalRecords patientId).length
           = (s.patientMedicalRecords patientId).length
       ∧ (s'.patientMedicalRecords patientId)[recordId]?
           = some { r with ipfsHash := newIpfsHash,
                           encryptedAESKey := newEncryptedAESKey,
                           timestamp := now, uploadedBy := sender }
       ∧ (∀ j, j ≠ recordId →
           (s'.patientMedicalRecords patientId)[j]?
             = (s.patientMedicalRecords patientId)[j]?)
       ∧ (∀ q, q ≠ patientId →
           s'.patientMedicalRecords q = s.patientMedicalRecords q))
    ∧ (∀ (s : ContractState) (sender : String) (patientId recordId now : Nat)
         (s' : ContractState) (r : EncryptedMedicalRecord),
         deactivateMedicalRecord s sender patientId recordId now = Except.ok s' →
         (s.patientMedicalRecords patientId)[recordId]? = some r →
         (s'.patientMedicalRecords patientId).length
             = (s.patientMedicalRecords patientId).length
         ∧ (s'.patientMedicalRecords patientId)[recordId]?
             = some { r with isActive := false }) := by
  constructor
  · intro s sender patientId recordId newIpfsHash newEncryptedAESKey now s' r
      h hr
    obtain ⟨r0, hr0, hrec, _⟩ :=
      update_ok_spec s sender patientId recordId newIpfsHash newEncryptedAESKey
        now s' h
    rw [hr0] at hr
    cases hr
    have hlen : recordId < (s.patientMedicalRecords patientId).length :=
      (List.getElem?_eq_some_iff.mp hr0).1
    refine ⟨?_, ?_, ?_, ?_⟩
    · rw [hrec]
      simp [List.length_set]
    · rw [hrec]
      simp [List.getElem?_set_self hlen]
    · intro j hj
      rw [hrec]
      simp [List.getElem?_set, Ne.symm hj]
    · intro q hq
      rw [hrec]
      simp [hq]
  · intro s sender patientId recordId now s' r h hr
    obtain ⟨r0, hr0, hrec⟩ :=
      deactivate_ok_spec s sender patientId recordId now s' h
    rw [hr0] at hr
    cases hr
    have hlen : recordId < (s.patientMedicalRecords patientId).length :=
      (List.getElem?_eq_some_iff.mp hr0).1
    constructor
    · rw [hrec]
      simp [List.length_set]
    · rw [hrec]
      simp [List.getElem?_set_self hlen]

/-- Witness for the amended C10: concrete update and deactivation of the
scenario record, record count preserved and slot overwritten. -/
theorem update_record_in_place_and_never_deleted_witness :
    ((stateAfterUpdate.patientMedicalRecords 7).length
        = (stateAfterApprove.patientMedicalRecords 7).length
     ∧ (stateAfterUpdate.patientMedicalRecords 7)[0]?
        = some ⟨0, 7, "QmRec0v2", "WrappedKey0v2", "policy-a-json", 200, "0xd9", true⟩)
    ∧ ((stateAfterDeactivate.patientMedicalRecords 7).length
        = (baseState.patientMedicalRecords 7).length
     ∧ (stateAfterDeactivate.patientMedicalRecords 7)[0]?
        = some ⟨0, 7, "QmRec0", "WrappedKey0", "policy-a-json", 50, "0xp7", false⟩) := by
  have h1 := update_record_in_place_and_never_deleted.1 stateAfterApprove "0xd9" 7 0
    "QmRec0v2" "WrappedKey0v2" 200 stateAfterUpdate
    ⟨0, 7, "QmRec0", "WrappedKey0", "policy-a-json", 50, "0xp7", true⟩ rfl rfl
  have h2 := update_record_in_place_and_never_deleted.2 baseState "0xp7" 7 0 60
    stateAfterDeactivate
    ⟨0, 7, "QmRec0", "WrappedKey0", "policy-a-json", 50, "0xp7", true⟩ rfl rfl
  exact ⟨⟨h1.1, h1.2.1⟩, ⟨h2.1, h2.2⟩⟩
